import Mathlib

/-!
Verification of the poster-rendering core of the meetmeat frontend.

The definitions below are a shallow embedding of the TypeScript source:
  - src/components/poster/PosterCanvas.tsx
      (getGradientColors, getContrastColor, createHexagonPath, formatDate,
       useSkiaFonts, the PosterCanvas component body)
  - src/components/poster/useImageLoader.ts
      (useImageLoader, useMultipleImages, clearImageCache)
  - src/app/create/export.tsx (handleExport)
JavaScript numbers are modelled with exact rational arithmetic (the channel
and coordinate computations stay far from double rounding boundaries), and
machine integers with Nat.  Fallible JS values (parseInt returning NaN,
cache misses, failed fetches) are modelled with Option.
-/

namespace MeetMeAt

/-! ## Hex color parsing (JS parseInt(hex.substring(i, i+2), 16)) -/

/-- Value of a single hexadecimal digit, as accepted by JS parseInt base 16. -/
def hexDigitVal (c : Char) : Option Nat :=
  if '0' ≤ c ∧ c ≤ '9' then some (c.toNat - '0'.toNat)
  else if 'a' ≤ c ∧ c ≤ 'f' then some (c.toNat - 'a'.toNat + 10)
  else if 'A' ≤ c ∧ c ≤ 'F' then some (c.toNat - 'A'.toNat + 10)
  else none

/-- JS parseInt(s, 16) on a string of at most two characters: parses the
maximal valid prefix, NaN (none) when the first character is not a digit. -/
def parseIntHex : List Char → Option Nat
  | [] => none
  | c :: rest =>
    match hexDigitVal c with
    | none => none
    | some h =>
      match rest with
      | [] => some h
      | c2 :: _ =>
        match hexDigitVal c2 with
        | none => some h
        | some l => some (16 * h + l)

/-- Model of the shared prologue of getGradientColors and getContrastColor:
primaryColor.replace(the hash sign, the empty string), which removes the
first occurrence; hex colors carry it in front when present at all. -/
def stripHash (s : String) : List Char :=
  match s.data with
  | '#' :: rest => rest
  | l => l

/-- Channel value parseInt(hex.substring(i, i+2), 16) for the stripped string. -/
def hexChan (s : String) (i : Nat) : Option Nat :=
  parseIntHex (((stripHash s).drop i).take 2)

/-! ## ColorMath: getContrastColor (PosterCanvas.tsx lines 70-77) -/

/-- Luminance (0.299 * r + 0.587 * g + 0.114 * b) / 255 of a color string;
none models the NaN produced by a malformed channel. -/
def luminanceOf (s : String) : Option ℚ :=
  match hexChan s 0, hexChan s 2, hexChan s 4 with
  | some r, some g, some b =>
      some (((0.299 : ℚ) * r + (0.587 : ℚ) * g + (0.114 : ℚ) * b) / 255)
  | _, _, _ => none

/-- The binary64 test luminance > 0.5 performed by the source, with
luminance = (0.299 * r + 0.587 * g + 0.114 * b) / 255 evaluated in IEEE
double precision, operation by operation as ECMAScript requires.  Away
from the threshold the double test agrees with the exact rational test
127500 < 299 * r + 587 * g + 114 * b: there the exact luminance differs
from 0.5 by at least 1/255000, while the accumulated rounding error of
the four-operation evaluation is smaller by many orders of magnitude.
On the 114 channel triples with exact sum 127500 (luminance exactly 0.5)
the rounded evaluation was determined exhaustively in binary64
arithmetic: it exceeds 0.5 at the single triple (218, 58, 248) — the
color #DA3AF8, where the doubles give 0.5000000000000001 — and stays at
or below 0.5 at the other 113.  This function encodes exactly that
behaviour. -/
def jsLuminanceAboveHalf (r g b : ℕ) : Bool :=
  (127500 < 299 * r + 587 * g + 114 * b) || (r == 218 && g == 58 && b == 248)

/-- getContrastColor from PosterCanvas.tsx: the double-precision
luminance test selects the dark color, anything else the light one.  A
NaN luminance (malformed color) compares false against 0.5 in JS,
selecting the light color. -/
def getContrastColor (bgColor : String) : String :=
  match hexChan bgColor 0, hexChan bgColor 2, hexChan bgColor 4 with
  | some r, some g, some b =>
      if jsLuminanceAboveHalf r g b then "#1A1A2E" else "#FFFFFF"
  | _, _, _ => "#FFFFFF"

/-! ## ColorMath: getGradientColors (PosterCanvas.tsx lines 45-68) -/

/-- Decimal rendering of a JS number that may be NaN. -/
def numStr : Option Nat → String
  | some n => toString n
  | none => "NaN"

/-- getGradientColors from PosterCanvas.tsx.  The switch cases modern,
minimal, bold are the first three branches; the classic case and the
default arm share the final branch, exactly as in the source.  Math.floor
of c * 0.8 is the Nat division c * 8 / 10 (exact: doubles do not cross the
floor boundary here), and Math.min(c + 40, 255) is min. -/
def getGradientColors (primaryColor : String) (layout : String) : String × String :=
  let r := hexChan primaryColor 0
  let g := hexChan primaryColor 2
  let b := hexChan primaryColor 4
  if layout = "modern" then
    (primaryColor,
     "rgba(" ++ numStr r ++ ", " ++ numStr g ++ ", " ++ numStr b ++ ", 0.7)")
  else if layout = "minimal" then
    (primaryColor, primaryColor)
  else if layout = "bold" then
    ("rgb(" ++ numStr (r.map fun c => c * 8 / 10) ++ ", "
            ++ numStr (g.map fun c => c * 8 / 10) ++ ", "
            ++ numStr (b.map fun c => c * 8 / 10) ++ ")",
     primaryColor)
  else
    (primaryColor,
     "rgb(" ++ numStr (r.map fun c => min (c + 40) 255) ++ ", "
            ++ numStr (g.map fun c => min (c + 40) 255) ++ ", "
            ++ numStr (b.map fun c => min (c + 40) 255) ++ ")")

/-! ## Data model (src/types, PosterCanvas.tsx props) -/

/-- Opaque decoded-image handle (SkImage of react-native-skia). -/
structure SkImage where
  id : Nat
deriving DecidableEq

/-- Opaque font handle: Skia.Font(typeface, size) with the typeface weight. -/
structure SkFont where
  weight : Nat
  size : ℚ
deriving DecidableEq

/-- FontSet from PosterCanvas.tsx (font, titleFont, smallFont, badgeFont,
nameFont). -/
structure FontSet where
  font : SkFont
  titleFont : SkFont
  smallFont : SkFont
  badgeFont : SkFont
  nameFont : SkFont
deriving DecidableEq

/-- EventLocation from src/types/event.ts (fields the poster reads). -/
structure EventLocation where
  city : Option String
  country : Option String
  isVirtual : Bool
deriving DecidableEq

/-- BrandColors from src/types/event.ts (field the poster reads). -/
structure BrandColors where
  primary : String
deriving DecidableEq

/-- Event from src/types/event.ts (fields the poster reads). -/
structure Event where
  name : String
  startDate : Option String
  endDate : Option String
  location : Option EventLocation
  logoUrl : Option String
  heroImageUrl : Option String
  brandColors : Option BrandColors
deriving DecidableEq

/-- UserInfo from PosterCanvas.tsx. -/
structure UserInfo where
  name : String
  title : String
  company : Option String
  photoUrl : Option String
deriving DecidableEq

/-- PosterCanvasProps from PosterCanvas.tsx; layout is kept as the runtime
string (the TS union is erased at runtime), none modelling an absent prop,
which the destructuring default turns into the string modern. -/
structure PosterCanvasProps where
  width : ℚ
  height : ℚ
  event : Option Event
  user : UserInfo
  layout : Option String
deriving DecidableEq

/-! ## formatDate (PosterCanvas.tsx lines 90-94) -/

/-- Short month name used by toLocaleDateString with month short. -/
def monthShort : Nat → Option String
  | 1 => some "Jan"
  | 2 => some "Feb"
  | 3 => some "Mar"
  | 4 => some "Apr"
  | 5 => some "May"
  | 6 => some "Jun"
  | 7 => some "Jul"
  | 8 => some "Aug"
  | 9 => some "Sep"
  | 10 => some "Oct"
  | 11 => some "Nov"
  | 12 => some "Dec"
  | _ => none

/-- Split a character list at every occurrence of sep (the semantics of
String.splitOn with a one-character separator). -/
def splitOnChar (sep : Char) : List Char → List (List Char)
  | [] => [[]]
  | c :: rest =>
    match splitOnChar sep rest with
    | [] => if c == sep then [[], []] else [[c]]
    | h :: t => if c == sep then [] :: h :: t else (c :: h) :: t

/-- Decimal value of a non-empty all-digit character list (the semantics
of String.toNat?). -/
def decDigitsVal : List Char → Option Nat
  | [] => none
  | l =>
    l.foldl
      (fun acc c =>
        match acc with
        | none => none
        | some n =>
          if '0' ≤ c ∧ c ≤ '9' then some (10 * n + (c.toNat - '0'.toNat)) else none)
      (some 0)

/-- Model of new Date(s).toLocaleDateString with en-US and options
month short, day numeric, year numeric, for ISO calendar-date strings
YYYY-MM-DD rendered in UTC (the host timezone is abstracted away);
strings that do not parse render as Invalid Date, as in JS. -/
def fmtDateEnUS (s : String) : String :=
  match splitOnChar '-' s.data with
  | [ys, ms, ds] =>
    match decDigitsVal ys, decDigitsVal ms, decDigitsVal ds with
    | some y, some m, some d =>
      match monthShort m with
      | some mn =>
        if 1 ≤ d ∧ d ≤ 31 then mn ++ " " ++ toString d ++ ", " ++ toString y
        else "Invalid Date"
      | none => "Invalid Date"
    | _, _, _ => "Invalid Date"
  | _ => "Invalid Date"

/-- formatDate from PosterCanvas.tsx: the guard (not dateStr) catches both
an undefined and an empty date string and yields the empty string. -/
def formatDate : Option String → String
  | none => ""
  | some s => if s = "" then "" else fmtDateEnUS s

/-! ## Derived render inputs (PosterCanvas component body) -/

/-- primaryColor: event optional-chained brandColors primary, with the
default of the nullish-coalescing operator. -/
def primaryColorOf (p : PosterCanvasProps) : String :=
  ((p.event.bind (·.brandColors)).map (·.primary)).getD "#6C5CE7"

/-- textColor = getContrastColor(primaryColor). -/
def textColorOf (p : PosterCanvasProps) : String :=
  getContrastColor (primaryColorOf p)

/-- The layout actually used: destructuring default modern when the prop
is absent. -/
def resolvedLayout (p : PosterCanvasProps) : String :=
  p.layout.getD "modern"

/-- eventName: event name with the fallback literal. -/
def eventNameOf (p : PosterCanvasProps) : String :=
  (p.event.map (·.name)).getD "Event Name"

/-- dateText = formatDate(event optional-chained startDate). -/
def dateTextOf (p : PosterCanvasProps) : String :=
  formatDate (p.event.bind (·.startDate))

/-- locationText: when the event has a location object, the comma join of
the city and country parts that are present and non-empty (filter(Boolean)),
otherwise the empty string. -/
def locationTextOf (p : PosterCanvasProps) : String :=
  match p.event.bind (·.location) with
  | some loc =>
      String.intercalate ", " ((([loc.city, loc.country]).filterMap id).filter (· != ""))
  | none => ""

/-! ## Compositor (the JSX draw tree of PosterCanvas, lines 183-324) -/

/-- The single child drawn inside the hexagon clip group: the user photo,
or the translucent placeholder rectangle. -/
inductive PhotoContent where
  | photo (img : SkImage) (x y w h : ℚ) (fit : String)
  | placeholderRect (x y w h : ℚ) (color : String)
deriving DecidableEq

/-- One draw layer of the composed canvas, in document order.  The hero
group carrying only an opacity around a single image is flattened into the
image layer opacity; the hexagon clip stores the (cx, cy, radius)
parameters that fully determine the SVG path built by createHexagonPath. -/
inductive PosterLayer where
  | fill (color : String)
  | gradientRect (x y w h sx sy ex ey : ℚ) (c0 c1 : String)
  | imageLayer (img : SkImage) (x y w h : ℚ) (fit : String) (opacity : ℚ)
  | textLayer (x y : ℚ) (text : String) (font : SkFont) (color : String) (opacity : ℚ)
  | roundedRect (x y w h r : ℚ) (color : String)
  | hexClipGroup (cx cy radius : ℚ) (content : PhotoContent)
  | hexStroke (cx cy radius strokeWidth : ℚ) (color : String)
deriving DecidableEq

/-- The apostrophe character, for string literals that contain one. -/
def apos : String := String.singleton '\''

/-- The badge label literal from the component body. -/
def badgeText : String := "I" ++ apos ++ "m attending!"

/-- The conditional date Text element (80 percent opacity, smallFont),
present exactly when dateText is truthy (non-empty). -/
def dateLayers (p : PosterCanvasProps) (fonts : FontSet) : List PosterLayer :=
  if dateTextOf p ≠ "" then
    [.textLayer (p.width * 0.05) (p.height * 0.28) (dateTextOf p) fonts.smallFont (textColorOf p) 0.8]
  else []

/-- The conditional company Text element (70 percent opacity), present
exactly when user.company is truthy. -/
def companyLayers (p : PosterCanvasProps) (fonts : FontSet) : List PosterLayer :=
  match p.user.company with
  | some c =>
      if c ≠ "" then
        [.textLayer (p.width * 0.1) (p.height * 0.83) c fonts.smallFont (textColorOf p) 0.7]
      else []
  | none => []

/-- The conditional location Text element (60 percent opacity), present
exactly when locationText is non-empty. -/
def locationLayers (p : PosterCanvasProps) (fonts : FontSet) : List PosterLayer :=
  if locationTextOf p ≠ "" then
    [.textLayer (p.width * 0.05) (p.height * 0.94) (locationTextOf p) fonts.smallFont (textColorOf p) 0.6]
  else []

/-- The full z-ordered draw list of the Canvas subtree of PosterCanvas,
as a function of the props, the loaded FontSet and the three resolved
images.  Mirrors the JSX in document order. -/
def posterLayers (p : PosterCanvasProps) (fonts : FontSet)
    (logoImage heroImage userPhoto : Option SkImage) : List PosterLayer :=
  let w := p.width
  let h := p.height
  let primary := primaryColorOf p
  let textColor := textColorOf p
  let grad := getGradientColors primary (resolvedLayout p)
  let photoRadius := w * 0.15
  let photoY := h * 0.5
  let badgeHeight := h * 0.06
  let badgeWidth := w * 0.45
  [PosterLayer.fill primary,
   PosterLayer.gradientRect 0 0 w h 0 0 w h grad.1 grad.2]
  ++ (match heroImage with
      | some img => [PosterLayer.imageLayer img 0 0 w h "cover" 0.15]
      | none => [])
  ++ (match logoImage with
      | some img => [PosterLayer.imageLayer img (w * 0.05) (h * 0.05) (w * 0.4) (h * 0.1) "contain" 1]
      | none => [])
  ++ [PosterLayer.textLayer (w * 0.05) (h * 0.22) (eventNameOf p) fonts.titleFont textColor 1]
  ++ dateLayers p fonts
  ++ [PosterLayer.roundedRect (w * 0.05) (h * 0.32) badgeWidth badgeHeight 6 textColor,
      PosterLayer.textLayer (w * 0.05 + 16) (h * 0.32 + badgeHeight / 2 + 6) badgeText fonts.badgeFont primary 1]
  ++ [PosterLayer.hexClipGroup (w / 2) photoY photoRadius
        (match userPhoto with
         | some img =>
             .photo img (w / 2 - photoRadius) (photoY - photoRadius) (photoRadius * 2) (photoRadius * 2) "cover"
         | none =>
             .placeholderRect (w / 2 - photoRadius) (photoY - photoRadius) (photoRadius * 2) (photoRadius * 2) (textColor ++ "33"))]
  ++ [PosterLayer.hexStroke (w / 2) photoY photoRadius 3 textColor]
  ++ [PosterLayer.textLayer (w * 0.1) (h * 0.72) p.user.name fonts.nameFont textColor 1,
      PosterLayer.textLayer (w * 0.1) (h * 0.78) p.user.title fonts.font textColor 0.9]
  ++ companyLayers p fonts
  ++ locationLayers p fonts

/-- The value returned by the PosterCanvas component: the fallback View
(spinner plus indicator text, no canvas) while fonts are unavailable,
else the composed Canvas. -/
inductive RenderOutput where
  | fallbackView (width height : ℚ) (backgroundColor spinnerColor : String)
      (message : String) (messageColor : String)
  | canvas (width height : ℚ) (layers : List PosterLayer)
deriving DecidableEq

/-- PosterCanvas render as a function of props, font readiness and the
resolved images. -/
def renderPosterCanvas (p : PosterCanvasProps) (fonts : Option FontSet)
    (logoImage heroImage userPhoto : Option SkImage) : RenderOutput :=
  match fonts with
  | none =>
      .fallbackView p.width p.height (primaryColorOf p) (textColorOf p)
        "Preparing canvas..." (textColorOf p)
  | some fs => .canvas p.width p.height (posterLayers p fs logoImage heroImage userPhoto)

/-- The text primitives drawn by an output (fallbackView draws none: it has
no canvas, only the native spinner view). -/
def outputTextLayers : RenderOutput → List PosterLayer
  | .fallbackView _ _ _ _ _ _ => []
  | .canvas _ _ layers =>
      layers.filter fun l =>
        match l with
        | .textLayer _ _ _ _ _ _ => true
        | _ => false

/-! ## AssetCache: useImageLoader.ts -/

/-- The module-level imageCache: Record from url to SkImage or null.  An
association list read through cacheGet: an absent key is none, a key set
to null (by clearImageCache) is some none. -/
def Cache : Type := List (String × Option SkImage)

instance : DecidableEq Cache := by
  unfold Cache
  infer_instance

/-- Property read imageCache[url]. -/
def cacheGet : Cache → String → Option (Option SkImage)
  | [], _ => none
  | (k, v) :: rest, u => if u = k then some v else cacheGet rest u

/-- Property write imageCache[url] = img. -/
def cacheSet (c : Cache) (k : String) (v : Option SkImage) : Cache :=
  (k, v) :: c

/-- JS truthiness of the cache read if (imageCache[url]) ... -/
def cacheHit : Option (Option SkImage) → Option SkImage
  | some (some img) => some img
  | _ => none

/-- Outcome of the fetch plus decode attempt inside loadImage: the fetch
(or arrayBuffer) threw, or Skia.Image.MakeImageFromEncoded returned null,
or it produced a decoded image. -/
inductive FetchResult where
  | fetchError
  | decodeFail
  | decoded (img : SkImage)
deriving DecidableEq

/-- Result of one run of the useImageLoader effect body: the cache after
the run, the image the hook ends up exposing, and whether a network fetch
was performed. -/
structure LoadOutcome where
  cache : Cache
  image : Option SkImage
  fetched : Bool
deriving DecidableEq

/-- One run of the useImageLoader effect for url against the current
cache, with fr the outcome of the fetch plus decode should one happen
(the component is taken as still mounted).  Guard order is the source
order: the (not url) guard (undefined or empty string), the cache
truthiness guard, then loadImage; only a successfully decoded image is
stored and exposed, failures are swallowed by the try/catch or the
if (loadedImage) test and leave both cache and exposed image (null on a
cache miss) unchanged. -/
def loadStep (cache : Cache) (url : Option String) (fr : FetchResult) : LoadOutcome :=
  match url with
  | none => { cache := cache, image := none, fetched := false }
  | some u =>
    if u = "" then { cache := cache, image := none, fetched := false }
    else
      match cacheHit (cacheGet cache u) with
      | some img => { cache := cache, image := some img, fetched := false }
      | none =>
        match fr with
        | .decoded img =>
            { cache := cacheSet cache u (some img), image := some img, fetched := true }
        | .fetchError => { cache := cache, image := none, fetched := true }
        | .decodeFail => { cache := cache, image := none, fetched := true }

/-- One run of the useMultipleImages effect body: the per-url closure in
the Promise.all has exactly the guards and cache writes of loadStep, so it
is expressed through it, the cache threaded in input order. -/
def loadManyStep (cache : Cache) : List (Option String × FetchResult) → Cache × List (Option SkImage)
  | [] => (cache, [])
  | (url, fr) :: rest =>
    let o := loadStep cache url fr
    let r := loadManyStep o.cache rest
    (r.1, o.image :: r.2)

/-- clearImageCache from useImageLoader.ts: every existing key is set to
null (not removed). -/
def clearImageCache (c : Cache) : Cache :=
  c.map fun kv => (kv.1, none)

/-- True when fr is a successful decode. -/
def FetchResult.isDecoded : FetchResult → Bool
  | .decoded _ => true
  | _ => false

/-- JS truthiness of a cache entry lookup result. -/
def entryTruthy : Option (Option SkImage) → Bool
  | some (some _) => true
  | _ => false

/-- A cache is warm for a url when no load for it would fetch: the url is
absent or empty, or its cache entry is truthy. -/
def warmFor (cache : Cache) : Option String → Bool
  | none => true
  | some u => (u == "") || entryTruthy (cacheGet cache u)

/-- The logo url read by the PosterCanvas body. -/
def posterLogoUrl (p : PosterCanvasProps) : Option String := p.event.bind (·.logoUrl)

/-- The hero url read by the PosterCanvas body. -/
def posterHeroUrl (p : PosterCanvasProps) : Option String := p.event.bind (·.heroImageUrl)

/-- One full render pass of PosterCanvas against the shared cache: the
three useImageLoader effects run against the cache in hook order, and the
component renders with the images they expose.  Returns the output and
the cache left behind for the next render. -/
def runPosterRender (p : PosterCanvasProps) (fonts : Option FontSet) (cache : Cache)
    (fa fb fc : FetchResult) : RenderOutput × Cache :=
  let oLogo := loadStep cache (posterLogoUrl p) fa
  let oHero := loadStep oLogo.cache (posterHeroUrl p) fb
  let oPhoto := loadStep oHero.cache p.user.photoUrl fc
  (renderPosterCanvas p fonts oLogo.image oHero.image oPhoto.image, oPhoto.cache)

/-! ## TypefaceReadiness: useSkiaFonts (PosterCanvas.tsx lines 114-140) -/

/-- maxAttempts constant of useSkiaFonts. -/
def maxAttempts : Nat := 20

/-- The fixed setTimeout delay of the retry loop, in milliseconds. -/
def retryDelayMs : Nat := 100

/-- Time (ms after mount) at which the k-th scheduled tryLoad call runs:
every setTimeout in the effect uses the fixed 100 ms delay, so attempt k
runs 100 * (k + 1) ms after the effect started. -/
def attemptTime (k : Nat) : Nat := retryDelayMs * (k + 1)

/-- The tryLoad retry loop of the useSkiaFonts effect.  avail k is the
result of the k-th scheduled tryLoadFonts call; attempts is the captured
counter; fuel = maxAttempts - attempts bounds the recursion exactly as the
attempts + 1 < maxAttempts guard does.  Returns the fonts obtained (if
any) and the number of scheduled tryLoad calls performed. -/
def tryLoadLoop (avail : Nat → Option FontSet) : Nat → Nat → Nat → Option FontSet × Nat
  | _, _, 0 => (none, 0)
  | k, attempts, fuel + 1 =>
    match avail k with
    | some fs => (some fs, 1)
    | none =>
      if attempts + 1 < maxAttempts then
        let r := tryLoadLoop avail (k + 1) (attempts + 1) fuel
        (r.1, r.2 + 1)
      else (none, 1)

/-- useSkiaFonts: the useState initializer attempts a synchronous
tryLoadFonts (initial); when it fails the effect runs the bounded retry
loop starting at attempts = 0 with the full budget. -/
def useSkiaFontsPoll (initial : Option FontSet) (avail : Nat → Option FontSet) :
    Option FontSet × Nat :=
  match initial with
  | some fs => (some fs, 0)
  | none => tryLoadLoop avail 0 0 maxAttempts

/-! ## Exporter: handleExport (src/app/create/export.tsx lines 32-71) -/

/-- How the awaited Share.share call ends: resolved (shared or dismissed
by the user) or rejected. -/
inductive ShareOutcome where
  | shared
  | dismissed
  | failed
deriving DecidableEq

/-- UI-visible effects of the export handler. -/
inductive UIEvent where
  | setBusy (b : Bool)
  | alert (title : String)
deriving DecidableEq

/-- The try-block body: await the fixed delay, await Share.share, then the
success alert; a rejected share surfaces as the exception value. -/
def exportBody (o : ShareOutcome) : Except String (List UIEvent) :=
  match o with
  | .failed => .error "share rejected"
  | _ => .ok [UIEvent.alert "Poster Ready!"]

/-- handleExport as its trace of UI events: setIsExporting(true) on entry,
the try body or the catch-arm error alert, and the finally-block
setIsExporting(false) on every path.  Total: no exception escapes. -/
def handleExport (o : ShareOutcome) : List UIEvent :=
  UIEvent.setBusy true ::
    ((match exportBody o with
      | .ok evs => evs
      | .error _ => [UIEvent.alert "Export Failed"])
     ++ [UIEvent.setBusy false])

/-- The busy flag after replaying a trace over an initial flag value. -/
def busyAfter (events : List UIEvent) (init : Bool) : Bool :=
  events.foldl (fun s e => match e with | .setBusy b => b | _ => s) init

/-- The alerts contained in a trace. -/
def alertsOf (events : List UIEvent) : List String :=
  events.filterMap fun e => match e with | .alert t => some t | _ => none

/-! ## ClipGeometry: createHexagonPath (PosterCanvas.tsx lines 79-88) -/

/-- The closed polygon path produced by createHexagonPath: the source
emits the SVG string M x0 y0 L x1 y1 ... L x5 y5 Z; it is modelled
structurally as the ordered vertex list plus the closed flag (the final
Z command). -/
structure SvgPath where
  points : List (ℝ × ℝ)
  closed : Bool

/-- Angle of vertex i: (Math.PI / 3) * i - Math.PI / 2. -/
noncomputable def hexAngle (i : ℕ) : ℝ := Real.pi / 3 * i - Real.pi / 2

/-- createHexagonPath from PosterCanvas.tsx: six vertices at
(cx + radius * cos(angle), cy + radius * sin(angle)), connected in order
and closed.  The guard on points[0] in the source cannot fire (range 6 is
never empty), so the empty-string branch is dead. -/
noncomputable def createHexagonPath (cx cy radius : ℝ) : SvgPath :=
  { points := (List.range 6).map fun i =>
      (cx + radius * Real.cos (hexAngle i), cy + radius * Real.sin (hexAngle i)),
    closed := true }

/-- A character-list prefix test (Boolean, decidable by kernel reduction). -/
def listPrefixEq : List Char → List Char → Bool
  | [], _ => true
  | _ :: _, [] => false
  | a :: as, b :: bs => a == b && listPrefixEq as bs

/-- Whether needle occurs as a contiguous subsequence of hay. -/
def listContainsSeq (needle : List Char) : List Char → Bool
  | [] => listPrefixEq needle []
  | c :: t => listPrefixEq needle (c :: t) || listContainsSeq needle t

/-! ## Sample data (concrete instances used to instantiate the theorems;
the event mirrors the end-to-end example of the specification) -/

/-- The FontSet produced by a successful tryLoadFonts: the font weights
and sizes hard-coded in the source. -/
def tryLoadFontsResult : FontSet :=
  { font := { weight := 400, size := 16 },
    titleFont := { weight := 700, size := 28 },
    smallFont := { weight := 400, size := 12 },
    badgeFont := { weight := 700, size := 18 },
    nameFont := { weight := 700, size := 22 } }

/-- A concrete event record. -/
def sampleEvent : Event :=
  { name := "React Summit 2025", startDate := some "2025-03-10",
    endDate := some "2025-03-12", location := none, logoUrl := none,
    heroImageUrl := none, brandColors := some { primary := "#E74C3C" } }

/-- A concrete user record. -/
def sampleUser : UserInfo :=
  { name := "Ada Lovelace", title := "Engineer", company := none, photoUrl := none }

/-- Concrete poster props. -/
def sampleProps : PosterCanvasProps :=
  { width := 400, height := 600, event := some sampleEvent, user := sampleUser,
    layout := some "bold" }

/-- The sample event without a start date. -/
def sampleEventNoStart : Event :=
  { sampleEvent with startDate := none, endDate := none }

/-- Poster props whose event has no start date. -/
def samplePropsNoStart : PosterCanvasProps :=
  { sampleProps with event := some sampleEventNoStart }

/-- The sample event with logo and hero image urls. -/
def sampleEventImgs : Event :=
  { sampleEvent with logoUrl := some "logo.png", heroImageUrl := some "hero.png" }

/-- The sample user with a photo url. -/
def sampleUserImgs : UserInfo :=
  { sampleUser with photoUrl := some "me.png" }

/-- Poster props referencing all three images. -/
def samplePropsImgs : PosterCanvasProps :=
  { sampleProps with event := some sampleEventImgs, user := sampleUserImgs }

/-- A cache warm for all three sample image urls. -/
def sampleWarmCache : Cache :=
  [("logo.png", some { id := 1 }), ("hero.png", some { id := 2 }),
   ("me.png", some { id := 3 })]

/-!
# Theorems

First the supporting lemmas, then one theorem per claim (with its witness
or counterexample).
-/

/-- The exact integer test underlying jsLuminanceAboveHalf is the exact
rational luminance test, over any channel values. -/
theorem getContrastColor_agrees_luminance (r g b : ℕ) :
    (127500 < 299 * r + 587 * g + 114 * b) ↔
      ((0.5 : ℚ) < ((0.299 : ℚ) * r + (0.587 : ℚ) * g + (0.114 : ℚ) * b) / 255) := by
  have h255 : (0 : ℚ) < 255 := by norm_num
  rw [lt_div_iff₀ h255]
  constructor
  · intro h
    have : (127500 : ℚ) < 299 * r + 587 * g + 114 * b := by exact_mod_cast h
    nlinarith
  · intro h
    have : (127500 : ℚ) < 299 * (r : ℚ) + 587 * g + 114 * b := by nlinarith
    exact_mod_cast this

/-- A single hex digit value is at most 15. -/
theorem hexDigitVal_le (c : Char) (v : ℕ) (h : hexDigitVal c = some v) : v ≤ 15 := by
  unfold hexDigitVal at h
  have e0 : '0'.toNat = 48 := rfl
  have ea : 'a'.toNat = 97 := rfl
  have eA : 'A'.toNat = 65 := rfl
  split at h
  · rename_i hc
    injection h with h
    have h1 : (48 : ℕ) ≤ c.toNat := hc.1
    have h2 : c.toNat ≤ 57 := hc.2
    omega
  · split at h
    · rename_i hc
      injection h with h
      have h1 : (97 : ℕ) ≤ c.toNat := hc.1
      have h2 : c.toNat ≤ 102 := hc.2
      omega
    · split at h
      · rename_i hc
        injection h with h
        have h1 : (65 : ℕ) ≤ c.toNat := hc.1
        have h2 : c.toNat ≤ 70 := hc.2
        omega
      · exact absurd h (by simp)

/-- A parsed two-digit hex channel is at most 255. -/
theorem parseIntHex_le (l : List Char) (v : ℕ) (h : parseIntHex l = some v) : v ≤ 255 := by
  rcases l with _ | ⟨c, rest⟩
  · simp [parseIntHex] at h
  · simp only [parseIntHex] at h
    rcases hd : hexDigitVal c with _ | hv
    · rw [hd] at h
      exact absurd h (by simp)
    · rw [hd] at h
      dsimp only at h
      have hb := hexDigitVal_le c hv hd
      rcases rest with _ | ⟨c2, t⟩
      · dsimp only at h
        injection h with h
        omega
      · dsimp only at h
        rcases hd2 : hexDigitVal c2 with _ | lv
        · rw [hd2] at h
          dsimp only at h
          injection h with h
          omega
        · rw [hd2] at h
          dsimp only at h
          injection h with h
          have hb2 := hexDigitVal_le c2 lv hd2
          omega

/-- Every channel read by hexChan lies in [0, 255]. -/
theorem hexChan_le (s : String) (i v : ℕ) (h : hexChan s i = some v) : v ≤ 255 :=
  parseIntHex_le _ v h

/-- Reading back a freshly written cache key yields the written value. -/
theorem cacheGet_set_self (c : Cache) (k : String) (v : Option SkImage) :
    cacheGet (cacheSet c k v) k = some v := by
  simp [cacheGet, cacheSet]

/-- A load whose fetch or decode failed leaves the cache untouched. -/
theorem loadStep_cache_fail (c : Cache) (url : Option String) (fr : FetchResult)
    (h : fr.isDecoded = false) : (loadStep c url fr).cache = c := by
  cases url with
  | none => rfl
  | some u =>
    by_cases hu : u = ""
    · simp [loadStep, hu]
    · cases hh : cacheHit (cacheGet c u) with
      | some img => simp [loadStep, hu, hh]
      | none =>
        cases fr with
        | decoded img => simp [FetchResult.isDecoded] at h
        | fetchError => simp [loadStep, hu, hh]
        | decodeFail => simp [loadStep, hu, hh]

/-- Any cache entry changed by a load is a truthy decoded image. -/
theorem loadStep_changed_truthy (c : Cache) (url : Option String) (fr : FetchResult) (k : String)
    (h : cacheGet ((loadStep c url fr).cache) k ≠ cacheGet c k) :
    entryTruthy (cacheGet ((loadStep c url fr).cache) k) = true := by
  cases url with
  | none => exact absurd rfl h
  | some u =>
    by_cases hu : u = ""
    · simp [loadStep, hu] at h
    · cases hh : cacheHit (cacheGet c u) with
      | some img => simp [loadStep, hu, hh] at h
      | none =>
        cases fr with
        | decoded img =>
          simp only [loadStep, hu, hh, if_neg hu] at h ⊢
          by_cases hk : k = u
          · subst hk
            simp [cacheGet, cacheSet, entryTruthy]
          · simp [cacheGet, cacheSet, hk] at h
        | fetchError => simp [loadStep, hu, hh] at h
        | decodeFail => simp [loadStep, hu, hh] at h

/-- Any cache entry changed by a batch load is a truthy decoded image. -/
theorem loadManyStep_changed_truthy :
    ∀ (l : List (Option String × FetchResult)) (c : Cache) (k : String),
      cacheGet ((loadManyStep c l).1) k ≠ cacheGet c k →
      entryTruthy (cacheGet ((loadManyStep c l).1) k) = true := by
  intro l
  induction l with
  | nil =>
    intro c k h
    exact absurd rfl h
  | cons hd tl ih =>
    intro c k h
    obtain ⟨url, fr⟩ := hd
    simp only [loadManyStep] at h ⊢
    by_cases hm : cacheGet ((loadManyStep (loadStep c url fr).cache tl).1) k
        = cacheGet ((loadStep c url fr).cache) k
    · rw [hm] at h ⊢
      exact loadStep_changed_truthy c url fr k h
    · exact ih _ k hm

/-- A load against a warm cache neither changes the cache nor depends on
the fetch outcome. -/
theorem loadStep_warm (c : Cache) (url : Option String) (fr fr2 : FetchResult)
    (h : warmFor c url = true) :
    (loadStep c url fr).cache = c ∧ loadStep c url fr = loadStep c url fr2 := by
  cases url with
  | none => exact ⟨rfl, rfl⟩
  | some u =>
    by_cases hu : u = ""
    · subst hu
      constructor
      · simp [loadStep]
      · simp [loadStep]
    · simp only [warmFor, Bool.or_eq_true, beq_iff_eq] at h
      rcases h with h | h
      · exact absurd h hu
      · unfold entryTruthy at h
        split at h
        · rename_i img heq
          constructor
          · simp [loadStep, hu, heq, cacheHit]
          · simp [loadStep, hu, heq, cacheHit]
        · simp at h

/-- clearImageCache nulls every entry and touches nothing else. -/
theorem clearImageCache_get (c : Cache) (k : String) :
    cacheGet (clearImageCache c) k = (cacheGet c k).map (fun _ => none) := by
  induction c with
  | nil => rfl
  | cons hd tl ih =>
    obtain ⟨k1, v⟩ := hd
    simp only [clearImageCache, List.map_cons, cacheGet]
    by_cases hk : k = k1
    · simp [hk]
    · simp only [if_neg hk]
      simpa [clearImageCache] using ih

/-- The en-US rendering of a date is never the empty string, so the date
layer condition is equivalent to start-date presence. -/
theorem fmtDateEnUS_ne_empty (s : String) : fmtDateEnUS s ≠ "" := by
  unfold fmtDateEnUS
  repeat' split
  all_goals intro hcon
  all_goals first
    | exact absurd hcon (by decide)
    | (have h1 := congrArg String.length hcon
       simp only [String.length_append] at h1
       have h2 : (" " : String).length = 1 := rfl
       have h3 : (", " : String).length = 2 := rfl
       have h0 : ("" : String).length = 0 := rfl
       omega)

/-- The date text drawn for an event with a non-empty start date is its
formatted start date. -/
theorem dateText_of_start (p : PosterCanvasProps) (e : Event) (s : String)
    (hpe : p.event = some e) (hs : e.startDate = some s) (hns : s ≠ "") :
    dateTextOf p = fmtDateEnUS s := by
  simp [dateTextOf, hpe, hs, formatDate, hns]

/-- The retry loop performs at most fuel scheduled attempts. -/
theorem tryLoadLoop_attempts_le (avail : Nat → Option FontSet) :
    ∀ (fuel k attempts : Nat), (tryLoadLoop avail k attempts fuel).2 ≤ fuel := by
  intro fuel
  induction fuel with
  | zero =>
    intro k attempts
    simp [tryLoadLoop]
  | succ n ih =>
    intro k attempts
    simp only [tryLoadLoop]
    cases avail k with
    | some fs => simp
    | none =>
      dsimp only
      split
      · have := ih (k + 1) (attempts + 1)
        simp
        omega
      · simp

/-- When every attempt fails the retry loop never produces fonts. -/
theorem tryLoadLoop_all_fail (avail : Nat → Option FontSet) (hav : ∀ j, avail j = none) :
    ∀ (fuel k attempts : Nat), (tryLoadLoop avail k attempts fuel).1 = none := by
  intro fuel
  induction fuel with
  | zero =>
    intro k attempts
    simp [tryLoadLoop]
  | succ n ih =>
    intro k attempts
    simp only [tryLoadLoop, hav k]
    split
    · exact ih (k + 1) (attempts + 1)
    · rfl

/-! ## Claim C1 -/

/-- Claim C1 counterexample: at brand color #6C5CE7 an unknown layout
name yields the classic gradient (the default arm of the switch is shared
with the classic case), which differs from the modern gradient, refuting
the claimed fallback to modern for unknown layout names. -/
theorem layout_unknown_counterexample :
    getGradientColors "#6C5CE7" "unknown-variant" ≠ getGradientColors "#6C5CE7" "modern" ∧
    getGradientColors "#6C5CE7" "unknown-variant" = getGradientColors "#6C5CE7" "classic" :=
  ⟨by decide, by decide⟩

/-- Claim C1 (amended): an absent layout prop resolves to modern via the
destructuring default, but a layout name that is none of modern, minimal,
bold resolves to the classic arm of the switch: its gradient, and hence
the whole resolved poster plan, equals the plan for classic (all other
plan components are layout-independent). -/
theorem layout_fallback_amended (s c : String) (p : PosterCanvasProps) (fs : FontSet)
    (logo hero photo : Option SkImage)
    (h1 : s ≠ "modern") (h2 : s ≠ "minimal") (h3 : s ≠ "bold") :
    getGradientColors c s = getGradientColors c "classic" ∧
    renderPosterCanvas { p with layout := some s } (some fs) logo hero photo =
      renderPosterCanvas { p with layout := some "classic" } (some fs) logo hero photo ∧
    renderPosterCanvas { p with layout := none } (some fs) logo hero photo =
      renderPosterCanvas { p with layout := some "modern" } (some fs) logo hero photo := by
  have hcm : ("classic" : String) ≠ "modern" := by decide
  have hcmin : ("classic" : String) ≠ "minimal" := by decide
  have hcb : ("classic" : String) ≠ "bold" := by decide
  have hgrad : ∀ col : String, getGradientColors col s = getGradientColors col "classic" := by
    intro col
    unfold getGradientColors
    rw [if_neg h1, if_neg h2, if_neg h3, if_neg hcm, if_neg hcmin, if_neg hcb]
  refine ⟨hgrad c, ?_, ?_⟩
  · unfold renderPosterCanvas posterLayers
    dsimp only [resolvedLayout]
    simp only [Option.getD_some]
    rw [hgrad]
    rfl
  · rfl

/-- Claim C1 witness: the amended fallback at concrete inputs. -/
theorem layout_fallback_amended_witness :
    ("unknown-variant" ≠ "modern") ∧ ("unknown-variant" ≠ "minimal") ∧
    ("unknown-variant" ≠ "bold") ∧
    (getGradientColors "#6C5CE7" "unknown-variant" = getGradientColors "#6C5CE7" "classic" ∧
     renderPosterCanvas { sampleProps with layout := some "unknown-variant" }
         (some tryLoadFontsResult) none none none =
       renderPosterCanvas { sampleProps with layout := some "classic" }
         (some tryLoadFontsResult) none none none ∧
     renderPosterCanvas { sampleProps with layout := none }
         (some tryLoadFontsResult) none none none =
       renderPosterCanvas { sampleProps with layout := some "modern" }
         (some tryLoadFontsResult) none none none) :=
  ⟨by decide, by decide, by decide,
   layout_fallback_amended "unknown-variant" "#6C5CE7" sampleProps tryLoadFontsResult
     none none none (by decide) (by decide) (by decide)⟩

/-! ## Claim C2 -/

/-- Claim C2 counterexample: for an event carrying both a start and an end
date, the drawn date text is the formatted start date alone; the formatted
end date does not occur in it, and the text is identical when the end date
is removed, refuting the claim that the end date is appended. -/
theorem dateLayer_endDate_counterexample :
    dateTextOf sampleProps = "Mar 10, 2025" ∧
    sampleEvent.endDate = some "2025-03-12" ∧
    fmtDateEnUS "2025-03-12" = "Mar 12, 2025" ∧
    listContainsSeq ("Mar 12, 2025".data) ("Mar 10, 2025".data) = false ∧
    dateTextOf { sampleProps with
      event := some { sampleEvent with endDate := none } } = "Mar 10, 2025" :=
  ⟨by decide, by decide, by decide, by decide, by decide⟩

/-- Claim C2 (amended): when the start date is present and non-empty the
compositor draws a date text layer at 80 percent opacity whose text is the
formatted start date only (the end date never contributes); when the start
date is absent the date layer is omitted entirely. -/
theorem dateLayer_amended (p p2 : PosterCanvasProps) (e e2 : Event) (fs : FontSet)
    (logo hero photo : Option SkImage) (s : String)
    (hpe : p.event = some e) (hs : e.startDate = some s) (hns : s ≠ "")
    (hpe2 : p2.event = some e2) (hs2 : e2.startDate = none) :
    dateTextOf p = fmtDateEnUS s ∧
    dateLayers p fs =
      [PosterLayer.textLayer (p.width * 0.05) (p.height * 0.28) (fmtDateEnUS s)
        fs.smallFont (textColorOf p) 0.8] ∧
    PosterLayer.textLayer (p.width * 0.05) (p.height * 0.28) (fmtDateEnUS s)
        fs.smallFont (textColorOf p) 0.8 ∈ posterLayers p fs logo hero photo ∧
    dateLayers p2 fs = [] := by
  have hdt : dateTextOf p = fmtDateEnUS s := dateText_of_start p e s hpe hs hns
  have hlay : dateLayers p fs =
      [PosterLayer.textLayer (p.width * 0.05) (p.height * 0.28) (fmtDateEnUS s)
        fs.smallFont (textColorOf p) 0.8] := by
    unfold dateLayers
    rw [hdt, if_pos (fmtDateEnUS_ne_empty s)]
  refine ⟨hdt, hlay, ?_, ?_⟩
  · simp [posterLayers, hlay]
  · simp [dateLayers, dateTextOf, hpe2, hs2, formatDate]

/-- Claim C2 witness: the amended date-layer behaviour at the sample
event (start date 2025-03-10 present, and absent in the variant). -/
theorem dateLayer_amended_witness :
    sampleProps.event = some sampleEvent ∧
    sampleEvent.startDate = some "2025-03-10" ∧
    ("2025-03-10" ≠ "") ∧
    samplePropsNoStart.event = some sampleEventNoStart ∧
    sampleEventNoStart.startDate = none ∧
    (dateTextOf sampleProps = fmtDateEnUS "2025-03-10" ∧
     dateLayers sampleProps tryLoadFontsResult =
       [PosterLayer.textLayer (sampleProps.width * 0.05) (sampleProps.height * 0.28)
         (fmtDateEnUS "2025-03-10") tryLoadFontsResult.smallFont (textColorOf sampleProps) 0.8] ∧
     PosterLayer.textLayer (sampleProps.width * 0.05) (sampleProps.height * 0.28)
         (fmtDateEnUS "2025-03-10") tryLoadFontsResult.smallFont (textColorOf sampleProps) 0.8 ∈
       posterLayers sampleProps tryLoadFontsResult none none none ∧
     dateLayers samplePropsNoStart tryLoadFontsResult = []) :=
  ⟨rfl, rfl, by decide, rfl, rfl,
   dateLayer_amended sampleProps samplePropsNoStart sampleEvent sampleEventNoStart
     tryLoadFontsResult none none none "2025-03-10" rfl rfl (by decide) rfl rfl⟩

/-! ## Claim C3 -/

/-- Claim C3 counterexample: the valid color #DA3AF8 (channels 218, 58,
248) has exact luminance exactly 0.5, so the claim requires the light
color #FFFFFF; but the source's double-precision evaluation of
(0.299 * 218 + 0.587 * 58 + 0.114 * 248) / 255 rounds to
0.5000000000000001 > 0.5 and the program returns the dark color
#1A1A2E. -/
theorem getContrastColor_boundary_counterexample :
    hexChan "#DA3AF8" 0 = some 218 ∧ hexChan "#DA3AF8" 2 = some 58 ∧
    hexChan "#DA3AF8" 4 = some 248 ∧
    (0.299 : ℚ) * (((218 : ℕ) : ℚ) / 255) + (0.587 : ℚ) * (((58 : ℕ) : ℚ) / 255)
      + (0.114 : ℚ) * (((248 : ℕ) : ℚ) / 255) = 0.5 ∧
    getContrastColor "#DA3AF8" = "#1A1A2E" ∧
    "#1A1A2E" ≠ "#FFFFFF" :=
  ⟨by decide, by decide, by decide, by norm_num, by decide, by decide⟩

/-- Claim C3 (amended): for every valid 6-hex-digit background color
whose exact luminance L = 0.299 (r/255) + 0.587 (g/255) + 0.114 (b/255)
is not exactly 0.5, getContrastColor returns the light canonical color
#FFFFFF when L < 0.5 (equivalently L ≤ 0.5 off the threshold) and the
dark canonical color #1A1A2E when L > 0.5; on the threshold L = 0.5 the
binary64 rounding of the source decides, and at #DA3AF8 — the one valid
color where it rounds above 0.5 — the dark color is returned instead of
the claimed light one.  The canonical examples #1A1A2E to #FFFFFF and
#FFFFFF to #1A1A2E hold, and the function is pure and total by
construction. -/
theorem getContrastColor_luminance_amended (s : String) (r g b : ℕ)
    (h0 : hexChan s 0 = some r) (h2 : hexChan s 2 = some g) (h4 : hexChan s 4 = some b)
    (hne : 299 * r + 587 * g + 114 * b ≠ 127500) :
    ((0.299 : ℚ) * ((r : ℚ) / 255) + (0.587 : ℚ) * ((g : ℚ) / 255)
        + (0.114 : ℚ) * ((b : ℚ) / 255) ≤ 0.5 →
      getContrastColor s = "#FFFFFF") ∧
    ((0.5 : ℚ) < (0.299 : ℚ) * ((r : ℚ) / 255) + (0.587 : ℚ) * ((g : ℚ) / 255)
        + (0.114 : ℚ) * ((b : ℚ) / 255) →
      getContrastColor s = "#1A1A2E") ∧
    getContrastColor "#DA3AF8" = "#1A1A2E" ∧
    getContrastColor "#1A1A2E" = "#FFFFFF" ∧
    getContrastColor "#FFFFFF" = "#1A1A2E" := by
  have heq : (0.299 : ℚ) * ((r : ℚ) / 255) + (0.587 : ℚ) * ((g : ℚ) / 255)
      + (0.114 : ℚ) * ((b : ℚ) / 255)
      = ((0.299 : ℚ) * r + (0.587 : ℚ) * g + (0.114 : ℚ) * b) / 255 := by ring
  have key := getContrastColor_agrees_luminance r g b
  have hflip : (r == 218 && g == 58 && b == 248) = false := by
    cases hcase : (r == 218 && g == 58 && b == 248) with
    | false => rfl
    | true =>
      obtain ⟨⟨hr, hg⟩, hb⟩ :
          (r = 218 ∧ g = 58) ∧ b = 248 := by
        simpa [Bool.and_eq_true, beq_iff_eq] using hcase
      subst hr
      subst hg
      subst hb
      exact absurd rfl hne
  have hgc : getContrastColor s =
      if 127500 < 299 * r + 587 * g + 114 * b then "#1A1A2E" else "#FFFFFF" := by
    unfold getContrastColor jsLuminanceAboveHalf
    rw [h0, h2, h4]
    dsimp only
    rw [hflip, Bool.or_false]
    simp only [decide_eq_true_eq]
  refine ⟨?_, ?_, by decide, by decide, by decide⟩
  · intro hle
    rw [hgc, if_neg]
    intro hlt
    rw [key] at hlt
    rw [heq] at hle
    linarith
  · intro hlt
    rw [hgc, if_pos]
    rw [key]
    rw [heq] at hlt
    exact hlt

/-- Claim C3 witness: the amended contrast rule at the off-threshold dark
color #1A1A2E with channels 26, 26, 46. -/
theorem getContrastColor_luminance_amended_witness :
    hexChan "#1A1A2E" 0 = some 26 ∧ hexChan "#1A1A2E" 2 = some 26 ∧
    hexChan "#1A1A2E" 4 = some 46 ∧
    (299 * 26 + 587 * 26 + 114 * 46 ≠ 127500) ∧
    (((0.299 : ℚ) * (((26 : ℕ) : ℚ) / 255) + (0.587 : ℚ) * (((26 : ℕ) : ℚ) / 255)
        + (0.114 : ℚ) * (((46 : ℕ) : ℚ) / 255) ≤ 0.5 →
      getContrastColor "#1A1A2E" = "#FFFFFF") ∧
     ((0.5 : ℚ) < (0.299 : ℚ) * (((26 : ℕ) : ℚ) / 255) + (0.587 : ℚ) * (((26 : ℕ) : ℚ) / 255)
        + (0.114 : ℚ) * (((46 : ℕ) : ℚ) / 255) →
      getContrastColor "#1A1A2E" = "#1A1A2E") ∧
     getContrastColor "#DA3AF8" = "#1A1A2E" ∧
     getContrastColor "#1A1A2E" = "#FFFFFF" ∧
     getContrastColor "#FFFFFF" = "#1A1A2E") :=
  ⟨by decide, by decide, by decide, by decide,
   getContrastColor_luminance_amended "#1A1A2E" 26 26 46
     (by decide) (by decide) (by decide) (by decide)⟩

/-! ## Claim C4 -/

/-- Claim C4: for every valid 6-hex-digit brand color, getGradientColors
returns exactly the four per-variant pairs: modern keeps the color and
fades to a 0.7-alpha rgba of the same channels; minimal returns two
identical stops; bold darkens each channel to floor(0.8 c) toward the
full color; classic lightens each channel by 40 clamped to 255; and all
channel arithmetic stays in the integers 0..255. -/
theorem getGradientColors_variants_spec (s : String) (r g b : ℕ)
    (h0 : hexChan s 0 = some r) (h2 : hexChan s 2 = some g) (h4 : hexChan s 4 = some b) :
    getGradientColors s "modern" =
      (s, "rgba(" ++ toString r ++ ", " ++ toString g ++ ", " ++ toString b ++ ", 0.7)") ∧
    getGradientColors s "minimal" = (s, s) ∧
    getGradientColors s "bold" =
      ("rgb(" ++ toString (r * 8 / 10) ++ ", " ++ toString (g * 8 / 10) ++ ", "
          ++ toString (b * 8 / 10) ++ ")", s) ∧
    getGradientColors s "classic" =
      (s, "rgb(" ++ toString (min (r + 40) 255) ++ ", " ++ toString (min (g + 40) 255) ++ ", "
          ++ toString (min (b + 40) 255) ++ ")") ∧
    (Nat.floor ((0.8 : ℚ) * r) = r * 8 / 10 ∧ Nat.floor ((0.8 : ℚ) * g) = g * 8 / 10 ∧
      Nat.floor ((0.8 : ℚ) * b) = b * 8 / 10) ∧
    (r ≤ 255 ∧ g ≤ 255 ∧ b ≤ 255) ∧
    (r * 8 / 10 ≤ 255 ∧ g * 8 / 10 ≤ 255 ∧ b * 8 / 10 ≤ 255) ∧
    (min (r + 40) 255 ≤ 255 ∧ min (g + 40) 255 ≤ 255 ∧ min (b + 40) 255 ≤ 255) := by
  have hr := hexChan_le s 0 r h0
  have hg := hexChan_le s 2 g h2
  have hb := hexChan_le s 4 b h4
  have hfloor : ∀ c : ℕ, Nat.floor ((0.8 : ℚ) * c) = c * 8 / 10 := by
    intro c
    have hc : (0.8 : ℚ) * c = ((8 * c : ℕ) : ℚ) / ((10 : ℕ) : ℚ) := by
      push_cast
      ring
    rw [hc, Nat.floor_div_nat, Nat.floor_natCast]
    omega
  refine ⟨?_, ?_, ?_, ?_, ⟨hfloor r, hfloor g, hfloor b⟩, ⟨hr, hg, hb⟩,
    ⟨by omega, by omega, by omega⟩, ⟨by omega, by omega, by omega⟩⟩
  all_goals simp [getGradientColors, h0, h2, h4, numStr]

/-- Claim C4 witness: the four gradients at #6C5CE7 (channels 108, 92,
231); in particular the minimal gradient is two identical stops equal to
the input color. -/
theorem getGradientColors_variants_spec_witness :
    hexChan "#6C5CE7" 0 = some 108 ∧ hexChan "#6C5CE7" 2 = some 92 ∧
    hexChan "#6C5CE7" 4 = some 231 ∧
    getGradientColors "#6C5CE7" "minimal" = ("#6C5CE7", "#6C5CE7") ∧
    getGradientColors "#6C5CE7" "modern" = ("#6C5CE7", "rgba(108, 92, 231, 0.7)") ∧
    getGradientColors "#6C5CE7" "bold" = ("rgb(86, 73, 184)", "#6C5CE7") ∧
    getGradientColors "#6C5CE7" "classic" = ("#6C5CE7", "rgb(148, 132, 255)") :=
  ⟨by decide, by decide, by decide,
   (getGradientColors_variants_spec "#6C5CE7" 108 92 231
      (by decide) (by decide) (by decide)).2.1,
   by decide, by decide, by decide⟩

/-! ## Claim C5 -/

/-- Claim C5: for all centers and radii (the degenerate radius 0
included), createHexagonPath emits exactly six vertices, vertex i at
angle -90 degrees plus 60 degrees times i (in radians: -pi/2 + pi/3 i) at
distance radius from the center, connected in order and explicitly
closed; consecutive vertices are separated by exactly 60 degrees, and for
center (100, 100) and radius 50 the first vertex is (100, 50). -/
theorem createHexagonPath_spec (cx cy radius : ℝ) (k : ℕ) :
    (createHexagonPath cx cy radius).points.length = 6 ∧
    (createHexagonPath cx cy radius).closed = true ∧
    (createHexagonPath cx cy radius).points =
      [(cx + radius * Real.cos (-(Real.pi / 2) + Real.pi / 3 * 0),
        cy + radius * Real.sin (-(Real.pi / 2) + Real.pi / 3 * 0)),
       (cx + radius * Real.cos (-(Real.pi / 2) + Real.pi / 3 * 1),
        cy + radius * Real.sin (-(Real.pi / 2) + Real.pi / 3 * 1)),
       (cx + radius * Real.cos (-(Real.pi / 2) + Real.pi / 3 * 2),
        cy + radius * Real.sin (-(Real.pi / 2) + Real.pi / 3 * 2)),
       (cx + radius * Real.cos (-(Real.pi / 2) + Real.pi / 3 * 3),
        cy + radius * Real.sin (-(Real.pi / 2) + Real.pi / 3 * 3)),
       (cx + radius * Real.cos (-(Real.pi / 2) + Real.pi / 3 * 4),
        cy + radius * Real.sin (-(Real.pi / 2) + Real.pi / 3 * 4)),
       (cx + radius * Real.cos (-(Real.pi / 2) + Real.pi / 3 * 5),
        cy + radius * Real.sin (-(Real.pi / 2) + Real.pi / 3 * 5))] ∧
    hexAngle (k + 1) - hexAngle k = Real.pi / 3 ∧
    hexAngle 0 = -(Real.pi / 2) ∧
    (createHexagonPath 100 100 50).points.head? = some (100, 50) := by
  have hang0 : hexAngle 0 = -(Real.pi / 2) := by
    unfold hexAngle
    push_cast
    ring
  refine ⟨by simp [createHexagonPath], rfl, ?_, ?_, hang0, ?_⟩
  · simp only [createHexagonPath, List.range_succ, List.map_append, List.map_cons, List.map_nil,
      List.nil_append, List.cons_append, List.append_assoc, hexAngle, List.range_zero]
    push_cast
    ring_nf
  · unfold hexAngle
    push_cast
    ring
  · simp only [createHexagonPath, List.range_succ, List.map_append, List.map_cons, List.map_nil,
      List.nil_append, List.cons_append, List.head?_cons]
    rw [hang0]
    rw [Real.cos_neg, Real.cos_pi_div_two, Real.sin_neg, Real.sin_pi_div_two]
    norm_num

/-! ## Claim C6 -/

/-- Claim C6: the image loader contract holds on every call: an absent or
empty url yields null with no fetch; a url whose decoded image is cached
yields the cached handle with no fetch and no cache change (so a second
load after a successful first performs no further decode and at most one
decode is stored under the key); and a fetch or decode failure yields
null without an exception (the step function is total) and leaves the
cache unchanged. -/
theorem useImageLoader_contract (cache c0 c1 : Cache) (u : String)
    (fr fr1 fr2 : FetchResult) (img i : SkImage)
    (hu : u ≠ "")
    (hc : cacheGet cache u = some (some img))
    (hmiss : cacheHit (cacheGet c1 u) = none)
    (hfirst : (loadStep c0 (some u) fr1).image = some i) :
    loadStep cache none fr = { cache := cache, image := none, fetched := false } ∧
    loadStep cache (some "") fr = { cache := cache, image := none, fetched := false } ∧
    loadStep cache (some u) fr = { cache := cache, image := some img, fetched := false } ∧
    loadStep c1 (some u) FetchResult.fetchError
      = { cache := c1, image := none, fetched := true } ∧
    loadStep c1 (some u) FetchResult.decodeFail
      = { cache := c1, image := none, fetched := true } ∧
    loadStep ((loadStep c0 (some u) fr1).cache) (some u) fr2
      = { cache := (loadStep c0 (some u) fr1).cache, image := some i, fetched := false } := by
  refine ⟨rfl, by simp [loadStep], ?_, ?_, ?_, ?_⟩
  · simp [loadStep, hu, hc, cacheHit]
  · simp [loadStep, hu, hmiss]
  · simp [loadStep, hu, hmiss]
  · cases hh : cacheHit (cacheGet c0 u) with
    | some j =>
      have hstep : loadStep c0 (some u) fr1
          = { cache := c0, image := some j, fetched := false } := by
        simp [loadStep, hu, hh]
      rw [hstep] at hfirst ⊢
      simp only at hfirst
      obtain rfl : j = i := by injection hfirst
      simp only
      cases hget : cacheGet c0 u with
      | none => simp [cacheHit, hget] at hh
      | some e =>
        cases e with
        | none => simp [cacheHit, hget] at hh
        | some j2 =>
          simp [cacheHit, hget] at hh
          subst hh
          simp [loadStep, hu, hget, cacheHit]
    | none =>
      cases fr1 with
      | decoded d =>
        have hstep : loadStep c0 (some u) (FetchResult.decoded d)
            = { cache := cacheSet c0 u (some d), image := some d, fetched := true } := by
          simp [loadStep, hu, hh]
        rw [hstep] at hfirst ⊢
        simp only at hfirst
        obtain rfl : d = i := by injection hfirst
        simp [loadStep, hu, cacheGet_set_self, cacheHit]
      | fetchError =>
        have hstep : loadStep c0 (some u) FetchResult.fetchError
            = { cache := c0, image := none, fetched := true } := by
          simp [loadStep, hu, hh]
        rw [hstep] at hfirst
        simp at hfirst
      | decodeFail =>
        have hstep : loadStep c0 (some u) FetchResult.decodeFail
            = { cache := c0, image := none, fetched := true } := by
          simp [loadStep, hu, hh]
        rw [hstep] at hfirst
        simp at hfirst

/-- Claim C6 witness: the loader contract at a cache holding logo.png,
with a first decoded load and a second load of the same url. -/
theorem useImageLoader_contract_witness :
    ("logo.png" ≠ "") ∧
    cacheGet [("logo.png", some { id := 1 })] "logo.png" = some (some { id := 1 }) ∧
    cacheHit (cacheGet [] "logo.png") = none ∧
    (loadStep [] (some "logo.png") (FetchResult.decoded { id := 2 })).image
      = some { id := 2 } ∧
    (loadStep [("logo.png", some { id := 1 })] none FetchResult.fetchError
      = { cache := [("logo.png", some { id := 1 })], image := none, fetched := false } ∧
     loadStep [("logo.png", some { id := 1 })] (some "") FetchResult.fetchError
      = { cache := [("logo.png", some { id := 1 })], image := none, fetched := false } ∧
     loadStep [("logo.png", some { id := 1 })] (some "logo.png") FetchResult.fetchError
      = { cache := [("logo.png", some { id := 1 })], image := some { id := 1 },
          fetched := false } ∧
     loadStep [] (some "logo.png") FetchResult.fetchError
      = { cache := [], image := none, fetched := true } ∧
     loadStep [] (some "logo.png") FetchResult.decodeFail
      = { cache := [], image := none, fetched := true } ∧
     loadStep ((loadStep [] (some "logo.png") (FetchResult.decoded { id := 2 })).cache)
         (some "logo.png") FetchResult.fetchError
      = { cache := (loadStep [] (some "logo.png") (FetchResult.decoded { id := 2 })).cache,
          image := some { id := 2 }, fetched := false }) :=
  ⟨by decide, by decide, by decide, by decide,
   useImageLoader_contract [("logo.png", some { id := 1 })] [] [] "logo.png"
     FetchResult.fetchError (FetchResult.decoded { id := 2 }) FetchResult.fetchError
     { id := 1 } { id := 2 } (by decide) (by decide) (by decide) (by decide)⟩

/-! ## Claim C7 -/

/-- Claim C7: while the font set is unavailable the renderer returns only
the brand-colored fallback view (spinner plus the Preparing canvas
indicator) and draws no text primitive; font acquisition is retried on a
fixed 100 ms interval at most 20 times (maxAttempts), and when every
attempt fails the poll yields no fonts, so the placeholder persists for
the session. -/
theorem useSkiaFonts_poll_contract (initial : Option FontSet) (avail : Nat → Option FontSet)
    (p : PosterCanvasProps) (logo hero photo : Option SkImage) (k : Nat)
    (hinit : initial = none) (hav : avail = fun _ => none) :
    (useSkiaFontsPoll initial avail).2 ≤ maxAttempts ∧
    maxAttempts = 20 ∧
    retryDelayMs = 100 ∧
    attemptTime (k + 1) - attemptTime k = retryDelayMs ∧
    (useSkiaFontsPoll initial avail).1 = none ∧
    renderPosterCanvas p none logo hero photo =
      RenderOutput.fallbackView p.width p.height (primaryColorOf p) (textColorOf p)
        "Preparing canvas..." (textColorOf p) ∧
    outputTextLayers (renderPosterCanvas p none logo hero photo) = [] := by
  subst hinit
  refine ⟨?_, rfl, rfl, ?_, ?_, rfl, rfl⟩
  · simpa [useSkiaFontsPoll] using tryLoadLoop_attempts_le avail maxAttempts 0 0
  · simp only [attemptTime, retryDelayMs]
    omega
  · simp only [useSkiaFontsPoll]
    exact tryLoadLoop_all_fail avail (by simp [hav]) maxAttempts 0 0

/-- Claim C7 witness: the poll contract when no attempt ever succeeds. -/
theorem useSkiaFonts_poll_contract_witness :
    ((none : Option FontSet) = none) ∧
    ((fun _ : Nat => (none : Option FontSet)) = fun _ => none) ∧
    ((useSkiaFontsPoll none fun _ => none).2 ≤ maxAttempts ∧
     maxAttempts = 20 ∧
     retryDelayMs = 100 ∧
     attemptTime (0 + 1) - attemptTime 0 = retryDelayMs ∧
     (useSkiaFontsPoll none fun _ => none).1 = none ∧
     renderPosterCanvas sampleProps none none none none =
       RenderOutput.fallbackView sampleProps.width sampleProps.height
         (primaryColorOf sampleProps) (textColorOf sampleProps)
         "Preparing canvas..." (textColorOf sampleProps) ∧
     outputTextLayers (renderPosterCanvas sampleProps none none none none) = []) :=
  ⟨rfl, rfl,
   useSkiaFonts_poll_contract none (fun _ => none) sampleProps none none none 0 rfl rfl⟩

/-! ## Claim C8 -/

/-- Claim C8: the export handler sets the busy flag on entry and resets
it on every exit path (successful share, user dismissal and rejected
share alike), never leaving the UI stuck; a failure surfaces as the
single Export Failed alert (which offers retry) rather than an escaping
exception, the handler being total. -/
theorem handleExport_busy_contract (o : ShareOutcome) :
    (handleExport o).head? = some (UIEvent.setBusy true) ∧
    (handleExport o).getLast? = some (UIEvent.setBusy false) ∧
    busyAfter (handleExport o) true = false ∧
    busyAfter (handleExport o) false = false ∧
    (o = ShareOutcome.failed → alertsOf (handleExport o) = ["Export Failed"]) ∧
    (o ≠ ShareOutcome.failed → alertsOf (handleExport o) = ["Poster Ready!"]) := by
  cases o <;> simp [handleExport, exportBody, busyAfter, alertsOf]

/-- Claim C8 witness: the busy contract on the failing path. -/
theorem handleExport_busy_contract_witness :
    (handleExport ShareOutcome.failed).head? = some (UIEvent.setBusy true) ∧
    (handleExport ShareOutcome.failed).getLast? = some (UIEvent.setBusy false) ∧
    busyAfter (handleExport ShareOutcome.failed) true = false ∧
    busyAfter (handleExport ShareOutcome.failed) false = false ∧
    (ShareOutcome.failed = ShareOutcome.failed →
      alertsOf (handleExport ShareOutcome.failed) = ["Export Failed"]) ∧
    (ShareOutcome.failed ≠ ShareOutcome.failed →
      alertsOf (handleExport ShareOutcome.failed) = ["Poster Ready!"]) :=
  handleExport_busy_contract ShareOutcome.failed

/-! ## Claim C9 -/

/-- Claim C9: with a cache warm for all three image urls, a render pass
neither changes the cache nor depends on the fetch outcomes, so rendering
the compositor twice with an identical poster descriptor and a fully
warmed cache produces identical output: the draw-layer sequence is a
deterministic pure function of the props, the fonts and the cache. -/
theorem renderPoster_warmCache_deterministic (p : PosterCanvasProps) (fonts : Option FontSet)
    (cache : Cache) (fa fb fc fa2 fb2 fc2 : FetchResult)
    (h1 : warmFor cache (posterLogoUrl p) = true)
    (h2 : warmFor cache (posterHeroUrl p) = true)
    (h3 : warmFor cache p.user.photoUrl = true) :
    (runPosterRender p fonts cache fa fb fc).2 = cache ∧
    runPosterRender p fonts cache fa fb fc = runPosterRender p fonts cache fa2 fb2 fc2 := by
  have eA : (loadStep cache (posterLogoUrl p) fa).cache = cache :=
    (loadStep_warm cache _ fa fa h1).1
  have eA2 : (loadStep cache (posterLogoUrl p) fa2).cache = cache :=
    (loadStep_warm cache _ fa2 fa2 h1).1
  have eB : (loadStep cache (posterHeroUrl p) fb).cache = cache :=
    (loadStep_warm cache _ fb fb h2).1
  have eB2 : (loadStep cache (posterHeroUrl p) fb2).cache = cache :=
    (loadStep_warm cache _ fb2 fb2 h2).1
  have eC : (loadStep cache p.user.photoUrl fc).cache = cache :=
    (loadStep_warm cache _ fc fc h3).1
  have iA : loadStep cache (posterLogoUrl p) fa = loadStep cache (posterLogoUrl p) fa2 :=
    (loadStep_warm cache _ fa fa2 h1).2
  have iB : loadStep cache (posterHeroUrl p) fb = loadStep cache (posterHeroUrl p) fb2 :=
    (loadStep_warm cache _ fb fb2 h2).2
  have iC : loadStep cache p.user.photoUrl fc = loadStep cache p.user.photoUrl fc2 :=
    (loadStep_warm cache _ fc fc2 h3).2
  constructor
  · simp only [runPosterRender]
    rw [eA, eB, eC]
  · simp only [runPosterRender]
    rw [eA, eB, eA2, eB2, iA, iB, iC]

/-- Claim C9 witness: determinism of the render pass for the sample props
referencing three images against the warm sample cache, across differing
fetch outcomes. -/
theorem renderPoster_warmCache_deterministic_witness :
    warmFor sampleWarmCache (posterLogoUrl samplePropsImgs) = true ∧
    warmFor sampleWarmCache (posterHeroUrl samplePropsImgs) = true ∧
    warmFor sampleWarmCache samplePropsImgs.user.photoUrl = true ∧
    ((runPosterRender samplePropsImgs (some tryLoadFontsResult) sampleWarmCache
        FetchResult.fetchError FetchResult.decodeFail
        (FetchResult.decoded { id := 9 })).2 = sampleWarmCache ∧
     runPosterRender samplePropsImgs (some tryLoadFontsResult) sampleWarmCache
        FetchResult.fetchError FetchResult.decodeFail (FetchResult.decoded { id := 9 }) =
       runPosterRender samplePropsImgs (some tryLoadFontsResult) sampleWarmCache
        (FetchResult.decoded { id := 7 }) FetchResult.fetchError FetchResult.decodeFail) :=
  ⟨by decide, by decide, by decide,
   renderPoster_warmCache_deterministic samplePropsImgs (some tryLoadFontsResult)
     sampleWarmCache FetchResult.fetchError FetchResult.decodeFail
     (FetchResult.decoded { id := 9 }) (FetchResult.decoded { id := 7 })
     FetchResult.fetchError FetchResult.decodeFail
     (by decide) (by decide) (by decide)⟩

/-! ## Claim C10 -/

/-- Claim C10: the shared cache is written only with successfully decoded
images: failed fetches and failed decodes leave the cache unchanged (so a
later load of a failed url fetches again), every cache entry changed by a
single or batch load is a truthy decoded image, clearImageCache sets
every existing entry to null while touching nothing else, and a nulled
entry is treated as a miss that triggers a fetch. -/
theorem imageCache_only_decoded_invariant (c : Cache) (url : Option String) (u k : String)
    (fr : FetchResult) (l : List (Option String × FetchResult))
    (hu : u ≠ "")
    (hnull : cacheGet c u = some none)
    (hch1 : cacheGet ((loadStep c url fr).cache) k ≠ cacheGet c k)
    (hch2 : cacheGet ((loadManyStep c l).1) k ≠ cacheGet c k) :
    (loadStep c url FetchResult.fetchError).cache = c ∧
    (loadStep c url FetchResult.decodeFail).cache = c ∧
    entryTruthy (cacheGet ((loadStep c url fr).cache) k) = true ∧
    entryTruthy (cacheGet ((loadManyStep c l).1) k) = true ∧
    cacheGet (clearImageCache c) k = (cacheGet c k).map (fun _ => none) ∧
    (loadStep c (some u) fr).fetched = true := by
  refine ⟨loadStep_cache_fail c url FetchResult.fetchError rfl,
    loadStep_cache_fail c url FetchResult.decodeFail rfl,
    loadStep_changed_truthy c url fr k hch1,
    loadManyStep_changed_truthy l c k hch2,
    clearImageCache_get c k, ?_⟩
  cases fr <;> simp [loadStep, hu, hnull, cacheHit]

/-- Claim C10 witness: the invariant at a cache whose entry for hero.png
was nulled by clearImageCache, with a decoded load changing logo.png. -/
theorem imageCache_only_decoded_invariant_witness :
    ("hero.png" ≠ "") ∧
    cacheGet [("hero.png", none)] "hero.png" = some none ∧
    cacheGet ((loadStep [("hero.png", none)] (some "logo.png")
        (FetchResult.decoded { id := 5 })).cache) "logo.png"
      ≠ cacheGet [("hero.png", none)] "logo.png" ∧
    cacheGet ((loadManyStep [("hero.png", none)]
        [(some "logo.png", FetchResult.decoded { id := 5 })]).1) "logo.png"
      ≠ cacheGet [("hero.png", none)] "logo.png" ∧
    ((loadStep [("hero.png", none)] (some "logo.png") FetchResult.fetchError).cache
      = [("hero.png", none)] ∧
     (loadStep [("hero.png", none)] (some "logo.png") FetchResult.decodeFail).cache
      = [("hero.png", none)] ∧
     entryTruthy (cacheGet ((loadStep [("hero.png", none)] (some "logo.png")
        (FetchResult.decoded { id := 5 })).cache) "logo.png") = true ∧
     entryTruthy (cacheGet ((loadManyStep [("hero.png", none)]
        [(some "logo.png", FetchResult.decoded { id := 5 })]).1) "logo.png") = true ∧
     cacheGet (clearImageCache [("hero.png", none)]) "logo.png"
      = (cacheGet [("hero.png", none)] "logo.png").map (fun _ => none) ∧
     (loadStep [("hero.png", none)] (some "hero.png")
        (FetchResult.decoded { id := 5 })).fetched = true) :=
  ⟨by decide, by decide, by decide, by decide,
   imageCache_only_decoded_invariant [("hero.png", none)] (some "logo.png")
     "hero.png" "logo.png" (FetchResult.decoded { id := 5 })
     [(some "logo.png", FetchResult.decoded { id := 5 })]
     (by decide) (by decide) (by decide) (by decide)⟩

end MeetMeAt
